import Mathlib

/-!
Verification development for the `rse-core` crate of the Reconnected Stock
Exchange: a shallow embedding in Lean 4 of the domain model
(`model.rs`, `model/ticker.rs`), the repository layer (`repo.rs`,
`repo/pg.rs`) and the service layer (`lib.rs`, `error.rs`), together with
theorems about their behaviour.

Modelling conventions:
* Rust `u8` bytes are `Nat`; byte strings (`&[u8]`, `String`) are `List Nat`;
  `i64`/`i32` are `Int`; `Uuid` is an opaque `Nat`; `rust_decimal::Decimal`
  is a (mantissa, scale) pair; timestamps are `Int` (nanoseconds).
* Rust `Result<T, E>` is `Except E T`; `Option<T>` is `Option T`.
* A Rust computation that can `panic!`/`expect` is embedded as a
  `RustResult` value whose `panicked` constructor marks the panic.
* The Postgres-backed port is embedded over a pure in-memory table of
  holdings rows; SQL transport errors do not arise in this pure model, so
  the `Err(_) => Unspecified`-style branches of `pg.rs` are modelled
  separately as the pure error-mapping functions `pg_*_err_map`.
-/

set_option autoImplicit false

deriving instance DecidableEq for Except

namespace RSE

/-- Outcome of running a piece of Rust code that may `panic!` (via `expect`):
either a normal return value or a panic. -/
inductive RustResult (α : Type) where
  | panicked
  | ret (v : α)
deriving DecidableEq, Repr

/-! ## `repo.rs` — repository-layer error type -/

namespace Repo

/-- `repo::Error` from `repo.rs`: the errors thrown when interfacing with a
`StockRepository`.  Three variants in the source: `AccountNotFound { id }`,
`AlreadyLinked`, `Unspecified`. -/
inductive Error where
  | AccountNotFound (id : Nat)
  | AlreadyLinked
  | Unspecified
deriving DecidableEq, Repr

end Repo

/-! ## `error.rs` — domain-layer error type and the layer translation -/

namespace Domain

/-- `error::Error` from `error.rs`: errors returned to ingress ports. -/
inductive Error where
  | InvalidSnowflake (flake : Nat)
  | DatabaseError (source : Repo.Error)
  | AccountExists
  | UserNotFound
deriving DecidableEq, Repr

/-- `impl From<crate::repo::Error> for Error` in `error.rs`:
`AlreadyLinked` becomes `AccountExists`, everything else is wrapped into
`DatabaseError { source }`. -/
def Error.fromRepo : Repo.Error → Error
  | Repo.Error.AlreadyLinked => Error.AccountExists
  | e => Error.DatabaseError e

end Domain

/-! ## `model/ticker.rs` — the `Ticker` value type -/

/-- `ticker::ParseError` from `model/ticker.rs`. -/
inductive ParseError where
  | InvalidChars
  | InvalidLen
deriving DecidableEq, Repr

/-- `u8::is_ascii_alphabetic`: the byte is an ASCII letter. -/
def isAsciiAlphabetic (b : Nat) : Bool :=
  (65 ≤ b && b ≤ 90) || (97 ≤ b && b ≤ 122)

/-- `u8::to_ascii_uppercase`: lowercase ASCII letters are shifted down by 32,
every other byte is unchanged. -/
def toAsciiUpper (b : Nat) : Nat :=
  if 97 ≤ b && b ≤ 122 then b - 32 else b

/-- `Ticker` from `model/ticker.rs`: a `([u8; 5], u8)` pair — a
fixed-capacity uppercase byte buffer plus the logical length. -/
structure Ticker where
  arr : List Nat
  len : Nat
deriving DecidableEq, Repr

namespace Ticker

/-- `Ticker::new` from `model/ticker.rs`: require length 3–5 (else
`InvalidLen`), then all bytes ASCII letters (else `InvalidChars`); copy the
input into a zero-padded 5-byte buffer and uppercase the whole buffer.
(The final `len.try_into()` to `u8` cannot fail since `len ≤ 5`.) -/
def new (v : List Nat) : Except ParseError Ticker :=
  let len := v.length
  if ¬ (3 ≤ len ∧ len ≤ 5) then Except.error ParseError.InvalidLen
  else if ¬ (v.all isAsciiAlphabetic) then Except.error ParseError.InvalidChars
  else Except.ok ⟨(v ++ List.replicate (5 - len) 0).map toAsciiUpper, len⟩

/-- `Ticker::as_str` from `model/ticker.rs`: the first `len` bytes of the
buffer, viewed as the canonical string (always valid ASCII). -/
def as_str (t : Ticker) : List Nat :=
  t.arr.take t.len

/-- `impl PartialEq for Ticker`: equality compares the canonical strings. -/
def beq (a b : Ticker) : Bool :=
  a.as_str = b.as_str

/-- `impl Hash for Ticker`: the value fed to the hasher is the canonical
string `as_str`, so the hash is a function of that string alone. -/
def hashInput (t : Ticker) : List Nat :=
  t.as_str

end Ticker

/-! ## `model.rs` — `UserInfo` and `Pager` -/

/-- Model of `rust_decimal::Decimal`: a scaled integer. -/
structure Decimal where
  mantissa : Int
  scale : Nat
deriving DecidableEq, Repr

/-- `UserInfo` from `model.rs`. -/
structure UserInfo where
  id : Nat
  balance : Decimal
  created_at : Int
  mc_id : Option Nat
  disc_id : Option Nat
deriving DecidableEq, Repr

/-- `Pager` from `model.rs`: an (offset, limit) pagination cursor. -/
structure Pager where
  offset : Int
  limit : Int
deriving DecidableEq, Repr

namespace Pager

/-- `Pager::new`: the limit is clamped to at least 1 (`limit.max(1)`);
the offset is stored as-is. -/
def new (offset limit : Int) : Pager :=
  ⟨offset, max limit 1⟩

/-- `Pager::add_offset`: `self.offset += v`. -/
def add_offset (p : Pager) (v : Int) : Pager :=
  { p with offset := p.offset + v }

/-- `Pager::add_limit`: `self.limit += v`. -/
def add_limit (p : Pager) (v : Int) : Pager :=
  { p with limit := p.limit + v }

/-- `Pager::set_offset`: `self.offset = v`. -/
def set_offset (p : Pager) (v : Int) : Pager :=
  { p with offset := v }

/-- `Pager::set_limit`: `self.limit = v`. -/
def set_limit (p : Pager) (v : Int) : Pager :=
  { p with limit := v }

end Pager

/-! ## `repo/pg.rs` — the Postgres-backed port, over a pure holdings table -/

/-- Abstract model of a `sqlx::Error` as this crate inspects it: either
`RowNotFound`, a database error that does or does not report a
unique-constraint violation, or any other failure. -/
inductive SqlxError where
  | rowNotFound
  | database (isUniqueViolation : Bool)
  | other
deriving DecidableEq, Repr

/-- The error mapping used by `user_exists`, `stock_exists`,
`discord_to_id`, `mc_to_id`, `user_info` and the `COUNT(*)` query of
`get_holdings` in `repo/pg.rs`: every sqlx error becomes `Unspecified`. -/
def pg_fetch_err_map (_e : SqlxError) : Repo.Error :=
  Repo.Error.Unspecified

/-- The error mapping of `register_user` in `repo/pg.rs`: a database error
that is a unique violation becomes `AlreadyLinked`, everything else
`Unspecified`. -/
def pg_register_err_map (e : SqlxError) : Repo.Error :=
  match e with
  | SqlxError.database true => Repo.Error.AlreadyLinked
  | _ => Repo.Error.Unspecified

/-- The `map_or_else` on the row query of `get_holdings` in `repo/pg.rs`:
`RowNotFound` becomes a successful `None`, every other sqlx error becomes
`Unspecified`. -/
def pg_holdings_fetch_map (e : SqlxError) :
    Except Repo.Error (Option (List (List Nat × Int))) :=
  match e with
  | SqlxError.rowNotFound => Except.ok none
  | _ => Except.error Repo.Error.Unspecified

/-- One row of the `holdings` table of the backing store. -/
structure HoldingRow where
  user_id : Nat
  ticker : List Nat
  shares : Int
deriving DecidableEq, Repr

/-- The local `StockValues` row type of `PgPort::get_holdings`. -/
structure StockValues where
  ticker : List Nat
  shares : Int
deriving DecidableEq, Repr

/-- Lexicographic byte-string comparison, modelling the `ORDER BY ticker`
collation order on ASCII ticker strings. -/
def strLe : List Nat → List Nat → Bool
  | [], _ => true
  | _ :: _, [] => false
  | x :: xs, y :: ys =>
    if x < y then true
    else if y < x then false
    else strLe xs ys

/-- Insert one row into a ticker-sorted list of rows. -/
def insertByTicker (r : StockValues) : List StockValues → List StockValues
  | [] => [r]
  | s :: rest =>
    if strLe r.ticker s.ticker then r :: s :: rest
    else s :: insertByTicker r rest

/-- Sort rows ascending by ticker (the `ORDER BY ticker` of the SQL query). -/
def sortByTicker : List StockValues → List StockValues
  | [] => []
  | r :: rest => insertByTicker r (sortByTicker rest)

/-- The row query of `PgPort::get_holdings`:
`SELECT ticker, shares FROM holdings WHERE user_id = $1 ORDER BY ticker
LIMIT $2 OFFSET $3`.  OFFSET is applied before LIMIT.  (The model covers
non-negative limit and offset; Postgres rejects negative values.) -/
def holdingsQuery (db : List HoldingRow) (id : Nat) (limit offset : Int) :
    List StockValues :=
  ((sortByTicker ((db.filter (fun r => r.user_id = id)).map
      (fun r => ⟨r.ticker, r.shares⟩))).drop offset.toNat).take limit.toNat

/-- The count query of `PgPort::get_holdings`:
`SELECT COUNT(*) FROM holdings WHERE user_id = $1`. -/
def countQuery (db : List HoldingRow) (id : Nat) : Int :=
  ((db.filter (fun r => r.user_id = id)).length : Int)

/-- The `filter_map` of `PgPort::get_holdings`: rows whose ticker fails to
parse are skipped; for rows that parse, `shares.try_into::<u32>()` is
`expect`ed, which panics on a negative share count. -/
def collectRows : List StockValues → RustResult (List (Ticker × Nat))
  | [] => RustResult.ret []
  | r :: rest =>
    match Ticker.new r.ticker with
    | Except.error _ => collectRows rest
    | Except.ok t =>
      if r.shares < 0 then RustResult.panicked
      else
        match collectRows rest with
        | RustResult.panicked => RustResult.panicked
        | RustResult.ret l => RustResult.ret ((t, r.shares.toNat) :: l)

/-- `PgPort::get_holdings` from `repo/pg.rs`, over a pure holdings table:
fetch the requested page (in the pure model the fetch succeeds, so the
`RowNotFound => None` branch does not fire and `unwrap_or_default` returns
the rows), convert the rows (skipping unparsable tickers, panicking on
negative share counts), query the fresh total, subtract
`i64::max(0, offset + len)` where `len` is the converted page length, and
finally `num.try_into::<usize>().expect("Will always be positive")` — a
panic whenever `num` is negative. -/
def pg_get_holdings (db : List HoldingRow) (id : Nat) (page : Pager) :
    RustResult (Except Repo.Error (Option (List (Ticker × Nat) × Nat))) :=
  match collectRows (holdingsQuery db id page.limit page.offset) with
  | RustResult.panicked => RustResult.panicked
  | RustResult.ret res =>
    let num : Int := countQuery db id - max 0 (page.offset + (res.length : Int))
    if 0 ≤ num then RustResult.ret (Except.ok (some (res, num.toNat)))
    else RustResult.panicked

/-! ## `lib.rs` — the `Service` layer -/

/-- The `StockRepository` trait of `repo.rs` as a pure record of operations
(futures dropped): each operation returns `Except repo::Error` of its
success type, with absence encoded as `Option`/`Bool`. -/
structure StockRepository where
  user_exists : Nat → Except Repo.Error Bool
  stock_exists : Ticker → Except Repo.Error Bool
  discord_to_id : Int → Except Repo.Error (Option Nat)
  mc_to_id : Nat → Except Repo.Error (Option Nat)
  user_info : Nat → Except Repo.Error (Option UserInfo)
  register_user : Option Int → Option Nat → Except Repo.Error Nat
  get_holdings : Nat → Pager → Except Repo.Error (Option (List (Ticker × Nat) × Nat))

/-- `Service<R>` from `lib.rs`: a wrapper around one repository. -/
structure Service where
  repo : StockRepository

namespace Service

/-- `Service::disc_to_id`:
`self.repo.discord_to_id(id.get()).await?.context(UserNotFoundSnafu)` —
a repository error goes through `From<repo::Error>`, a successful `None`
becomes `UserNotFound`, a successful `Some(v)` is returned. -/
def disc_to_id (s : Service) (id : Int) : Except Domain.Error Nat :=
  match s.repo.discord_to_id id with
  | Except.error e => Except.error (Domain.Error.fromRepo e)
  | Except.ok none => Except.error Domain.Error.UserNotFound
  | Except.ok (some v) => Except.ok v

/-- `Service::mc_to_id`:
`self.repo.mc_to_id(id).await?.context(UserNotFoundSnafu)`. -/
def mc_to_id (s : Service) (id : Nat) : Except Domain.Error Nat :=
  match s.repo.mc_to_id id with
  | Except.error e => Except.error (Domain.Error.fromRepo e)
  | Except.ok none => Except.error Domain.Error.UserNotFound
  | Except.ok (some v) => Except.ok v

/-- `Service::get_account_info`:
`self.repo.user_info(id).await?.context(UserNotFoundSnafu)`. -/
def get_account_info (s : Service) (id : Nat) : Except Domain.Error UserInfo :=
  match s.repo.user_info id with
  | Except.error e => Except.error (Domain.Error.fromRepo e)
  | Except.ok none => Except.error Domain.Error.UserNotFound
  | Except.ok (some v) => Except.ok v

/-- `Service::get_holdings`:
`self.repo.get_holdings(id, page).await?.context(UserNotFoundSnafu)`. -/
def get_holdings (s : Service) (id : Nat) (page : Pager) :
    Except Domain.Error (List (Ticker × Nat) × Nat) :=
  match s.repo.get_holdings id page with
  | Except.error e => Except.error (Domain.Error.fromRepo e)
  | Except.ok none => Except.error Domain.Error.UserNotFound
  | Except.ok (some v) => Except.ok v

end Service

/-- `Service::get_holdings` composed with the Postgres port
(`Service<PgPort>`), with the port's possible panic propagated. -/
def service_get_holdings_pg (db : List HoldingRow) (id : Nat) (page : Pager) :
    RustResult (Except Domain.Error (List (Ticker × Nat) × Nat)) :=
  match pg_get_holdings db id page with
  | RustResult.panicked => RustResult.panicked
  | RustResult.ret (Except.error e) =>
    RustResult.ret (Except.error (Domain.Error.fromRepo e))
  | RustResult.ret (Except.ok none) =>
    RustResult.ret (Except.error Domain.Error.UserNotFound)
  | RustResult.ret (Except.ok (some v)) => RustResult.ret (Except.ok v)

/-! ## Concrete fixtures used by witnesses and concrete claims -/

/-- A concrete holdings table: account 1 holds AAPL 10, TSLA 5 and ZZZ 1
(rows deliberately unsorted); no other account has any row. -/
def exDb : List HoldingRow :=
  [⟨1, [84, 83, 76, 65], 5⟩, ⟨1, [65, 65, 80, 76], 10⟩, ⟨1, [90, 90, 90], 1⟩]

/-- A concrete repository with constant answers, used to instantiate
theorems about the generic `Service`. -/
def constRepo : StockRepository where
  user_exists := fun _ => Except.ok true
  stock_exists := fun _ => Except.ok false
  discord_to_id := fun _ => Except.ok none
  mc_to_id := fun _ => Except.ok (some 9)
  user_info := fun _ => Except.ok none
  register_user := fun _ _ => Except.ok 3
  get_holdings := fun _ _ => Except.ok (some ([], 0))

/-! ## Helper lemmas -/

/-- On a valid input, `Ticker::new` succeeds with the zero-padded
uppercased buffer and the input's length. -/
theorem ticker_new_eq_ok (v : List Nat) (h3 : 3 ≤ v.length) (h5 : v.length ≤ 5)
    (hab : v.all isAsciiAlphabetic = true) :
    Ticker.new v =
      Except.ok ⟨(v ++ List.replicate (5 - v.length) 0).map toAsciiUpper, v.length⟩ := by
  simp [Ticker.new, h3, h5, hab]

/-- The canonical string of a ticker built from a valid input is the
uppercase image of that input. -/
theorem ticker_mk_as_str (v : List Nat) :
    Ticker.as_str ⟨(v ++ List.replicate (5 - v.length) 0).map toAsciiUpper, v.length⟩ =
      v.map toAsciiUpper := by
  unfold Ticker.as_str
  rw [List.map_append, ← List.length_map v toAsciiUpper]
  exact List.take_left _ _

/-- Inversion for a successful `Ticker::new`: the validity conditions held
and the resulting canonical string is the uppercase image of the input. -/
theorem ticker_new_inv (v : List Nat) (t : Ticker) (h : Ticker.new v = Except.ok t) :
    t.as_str = v.map toAsciiUpper ∧ 3 ≤ v.length ∧ v.length ≤ 5 ∧
      v.all isAsciiAlphabetic = true := by
  have hlen : 3 ≤ v.length ∧ v.length ≤ 5 := by
    by_contra hc
    simp [Ticker.new, hc] at h
  have hab : v.all isAsciiAlphabetic = true := by
    by_contra hc
    simp [Ticker.new, hlen.1, hlen.2, hc] at h
  rw [ticker_new_eq_ok v hlen.1 hlen.2 hab] at h
  injection h with h
  subst h
  exact ⟨ticker_mk_as_str v, hlen.1, hlen.2, hab⟩

/-- Inserting a row into a sorted row list grows its length by one. -/
theorem length_insertByTicker (r : StockValues) (l : List StockValues) :
    (insertByTicker r l).length = l.length + 1 := by
  induction l with
  | nil => rfl
  | cons s rest ih =>
    simp only [insertByTicker]
    split
    · simp
    · simp [ih]

/-- Sorting by ticker preserves the number of rows. -/
theorem length_sortByTicker (l : List StockValues) :
    (sortByTicker l).length = l.length := by
  induction l with
  | nil => rfl
  | cons r rest ih =>
    simp only [sortByTicker]
    rw [length_insertByTicker, ih, List.length_cons]

/-- Specification of a successful `PgPort::get_holdings` run: the returned
remaining count is the fresh total minus `max 0 (offset + page length)`,
and the run succeeded only because that difference was non-negative. -/
theorem pg_success_spec (db : List HoldingRow) (id : Nat) (page : Pager)
    (l : List (Ticker × Nat)) (n : Nat)
    (h : pg_get_holdings db id page = RustResult.ret (Except.ok (some (l, n)))) :
    (n : Int) = countQuery db id - max 0 (page.offset + (l.length : Int)) ∧
      max 0 (page.offset + (l.length : Int)) ≤ countQuery db id := by
  unfold pg_get_holdings at h
  cases hc : collectRows (holdingsQuery db id page.limit page.offset) with
  | panicked => rw [hc] at h; cases h
  | ret res =>
    rw [hc] at h
    simp only at h
    split at h
    · rename_i hpos
      simp only [RustResult.ret.injEq, Except.ok.injEq, Option.some.injEq,
        Prod.mk.injEq] at h
      obtain ⟨rfl, rfl⟩ := h
      constructor
      · rw [Int.toNat_of_nonneg hpos]
      · omega
    · cases h

/-- When the pager's offset is non-negative and strictly exceeds the user's
total number of holdings rows, `PgPort::get_holdings` panics: the fetched
page is empty and the computed remaining count is negative. -/
theorem pg_offset_exceeds_panic (db : List HoldingRow) (id : Nat) (page : Pager)
    (h0 : 0 ≤ page.offset) (hgt : countQuery db id < page.offset) :
    pg_get_holdings db id page = RustResult.panicked := by
  have hq : holdingsQuery db id page.limit page.offset = [] := by
    unfold holdingsQuery
    have hlen : (sortByTicker ((db.filter (fun r => r.user_id = id)).map
        (fun r => ⟨r.ticker, r.shares⟩))).length ≤ page.offset.toNat := by
      rw [length_sortByTicker, List.length_map]
      unfold countQuery at hgt
      omega
    rw [List.drop_eq_nil_of_le hlen]
    exact List.take_nil
  unfold pg_get_holdings
  rw [hq]
  simp only [collectRows]
  have hneg : ¬ (0 ≤ countQuery db id -
      max 0 (page.offset + ((([] : List (Ticker × Nat)).length : Nat) : Int))) := by
    simp only [List.length_nil, Nat.cast_zero, add_zero]
    omega
  simp only [if_neg hneg]

/-! ## Claim theorems -/

/-- Claim C1: at every required-value call site of the Service
(`disc_to_id`, `mc_to_id`, `get_account_info`, `get_holdings`), a
successful absent repository result (`Ok(None)`) is promoted to the domain
error `UserNotFound`, and a present value (`Ok(Some(v))`) is returned
unchanged; absence is never passed through as a raw `Option`. -/
theorem c1_absence_promoted_to_user_not_found (s : Service) (did : Int)
    (mid uid hid : Nat) (page : Pager) :
    (s.repo.discord_to_id did = Except.ok none →
      s.disc_to_id did = Except.error Domain.Error.UserNotFound) ∧
    (∀ v, s.repo.discord_to_id did = Except.ok (some v) →
      s.disc_to_id did = Except.ok v) ∧
    (s.repo.mc_to_id mid = Except.ok none →
      s.mc_to_id mid = Except.error Domain.Error.UserNotFound) ∧
    (∀ v, s.repo.mc_to_id mid = Except.ok (some v) →
      s.mc_to_id mid = Except.ok v) ∧
    (s.repo.user_info uid = Except.ok none →
      s.get_account_info uid = Except.error Domain.Error.UserNotFound) ∧
    (∀ v, s.repo.user_info uid = Except.ok (some v) →
      s.get_account_info uid = Except.ok v) ∧
    (s.repo.get_holdings hid page = Except.ok none →
      s.get_holdings hid page = Except.error Domain.Error.UserNotFound) ∧
    (∀ v, s.repo.get_holdings hid page = Except.ok (some v) →
      s.get_holdings hid page = Except.ok v) := by
  refine ⟨?_, ?_, ?_, ?_, ?_, ?_, ?_, ?_⟩ <;>
    first
    | (intro h
       simp [Service.disc_to_id, Service.mc_to_id, Service.get_account_info,
         Service.get_holdings, h])
    | (intro v h
       simp [Service.disc_to_id, Service.mc_to_id, Service.get_account_info,
         Service.get_holdings, h])

/-- Witness for C1, at the constant repository. -/
theorem c1_witness :
    Service.disc_to_id ⟨constRepo⟩ 1 = Except.error Domain.Error.UserNotFound ∧
    Service.mc_to_id ⟨constRepo⟩ 2 = Except.ok 9 :=
  ⟨(c1_absence_promoted_to_user_not_found ⟨constRepo⟩ 1 2 3 4 (Pager.new 0 1)).1 rfl,
   (c1_absence_promoted_to_user_not_found ⟨constRepo⟩ 1 2 3 4 (Pager.new 0 1)).2.2.2.1 9 rfl⟩

/-- Claim C2: the repository-to-domain error translation is total over the
repository error set, maps `AlreadyLinked` to `AccountExists`, and maps
every other repository error to `DatabaseError` wrapping the original. -/
theorem c2_error_translation :
    Domain.Error.fromRepo Repo.Error.AlreadyLinked = Domain.Error.AccountExists ∧
    ∀ e : Repo.Error, e ≠ Repo.Error.AlreadyLinked →
      Domain.Error.fromRepo e = Domain.Error.DatabaseError e := by
  refine ⟨rfl, ?_⟩
  intro e he
  cases e with
  | AccountNotFound u => rfl
  | AlreadyLinked => exact absurd rfl he
  | Unspecified => rfl

/-- Witness for C2, at the `Unspecified` repository error. -/
theorem c2_witness :
    Domain.Error.fromRepo Repo.Error.Unspecified =
      Domain.Error.DatabaseError Repo.Error.Unspecified :=
  c2_error_translation.2 Repo.Error.Unspecified (by decide)

/-- Counterexample to C3: the repository error type is not a closed set of
exactly two variants — `AccountNotFound 0` inhabits it and is neither
`AlreadyLinked` nor `Unspecified`. -/
theorem c3_counterexample :
    ¬ (Repo.Error.AccountNotFound 0 = Repo.Error.AlreadyLinked ∨
       Repo.Error.AccountNotFound 0 = Repo.Error.Unspecified) := by
  decide

/-- Claim C3 (amended): the repository error type is the closed set of
exactly three variants `AccountNotFound`, `AlreadyLinked`, `Unspecified`;
the Postgres port's error mappings only ever produce `AlreadyLinked` or
`Unspecified` (never `AccountNotFound`), and the holdings row-fetch maps
`RowNotFound` to a successful absent value rather than an error. -/
theorem c3_amended_closed_error_set :
    (∀ e : Repo.Error, (∃ u, e = Repo.Error.AccountNotFound u) ∨
       e = Repo.Error.AlreadyLinked ∨ e = Repo.Error.Unspecified) ∧
    (∀ e : SqlxError, pg_fetch_err_map e = Repo.Error.Unspecified) ∧
    (∀ e : SqlxError, pg_register_err_map e = Repo.Error.AlreadyLinked ∨
       pg_register_err_map e = Repo.Error.Unspecified) ∧
    (∀ e : SqlxError, pg_holdings_fetch_map e = Except.ok none ∨
       pg_holdings_fetch_map e = Except.error Repo.Error.Unspecified) ∧
    (∀ (e : SqlxError) (u : Nat),
       pg_fetch_err_map e ≠ Repo.Error.AccountNotFound u ∧
       pg_register_err_map e ≠ Repo.Error.AccountNotFound u) := by
  refine ⟨?_, ?_, ?_, ?_, ?_⟩
  · intro e
    cases e with
    | AccountNotFound u => exact Or.inl ⟨u, rfl⟩
    | AlreadyLinked => exact Or.inr (Or.inl rfl)
    | Unspecified => exact Or.inr (Or.inr rfl)
  · intro e
    rfl
  · intro e
    cases e with
    | rowNotFound => exact Or.inr rfl
    | database b => cases b
                    · exact Or.inr rfl
                    · exact Or.inl rfl
    | other => exact Or.inr rfl
  · intro e
    cases e with
    | rowNotFound => exact Or.inl rfl
    | database b => cases b <;> exact Or.inr rfl
    | other => exact Or.inr rfl
  · intro e u
    cases e with
    | rowNotFound => exact ⟨by simp [pg_fetch_err_map], by simp [pg_register_err_map]⟩
    | database b => cases b <;>
        exact ⟨by simp [pg_fetch_err_map], by simp [pg_register_err_map]⟩
    | other => exact ⟨by simp [pg_fetch_err_map], by simp [pg_register_err_map]⟩

/-- Claim C4: every byte sequence of length 3 to 5 made of ASCII letters is
accepted by `Ticker::new`, and the canonical string of the result is the
ASCII-uppercase of the input. -/
theorem c4_valid_ticker_roundtrip (v : List Nat) (h3 : 3 ≤ v.length)
    (h5 : v.length ≤ 5) (hab : v.all isAsciiAlphabetic = true) :
    ∃ t, Ticker.new v = Except.ok t ∧ t.as_str = v.map toAsciiUpper :=
  ⟨_, ticker_new_eq_ok v h3 h5 hab, ticker_mk_as_str v⟩

/-- Witness for C4, at the input "abc". -/
theorem c4_witness :
    ∃ t, Ticker.new [97, 98, 99] = Except.ok t ∧
      t.as_str = [97, 98, 99].map toAsciiUpper :=
  c4_valid_ticker_roundtrip [97, 98, 99] (by decide) (by decide) (by decide)

/-- Counterexample to C5: the input "00" (two non-letter bytes) fails with
`InvalidLen`, not `InvalidChars` — the length check runs first, so the
claim's "InvalidChars whenever any element is not an ASCII letter" does not
hold on inputs that are also of invalid length. -/
theorem c5_counterexample :
    ([48, 48].all isAsciiAlphabetic = false) ∧
    Ticker.new [48, 48] = Except.error ParseError.InvalidLen ∧
    ParseError.InvalidLen ≠ ParseError.InvalidChars := by
  decide

/-- Claim C5 (amended): every byte sequence of invalid length or with a
non-letter byte is rejected by `Ticker::new`; the failure is `InvalidLen`
whenever the length is not 3–5, and `InvalidChars` whenever the length is
3–5 but some element is not an ASCII letter. -/
theorem c5_amended_failure_cases (v : List Nat) :
    (¬ (3 ≤ v.length ∧ v.length ≤ 5) →
      Ticker.new v = Except.error ParseError.InvalidLen) ∧
    (3 ≤ v.length → v.length ≤ 5 → ¬ (v.all isAsciiAlphabetic = true) →
      Ticker.new v = Except.error ParseError.InvalidChars) ∧
    ((¬ (3 ≤ v.length ∧ v.length ≤ 5) ∨ ¬ (v.all isAsciiAlphabetic = true)) →
      ∃ e, Ticker.new v = Except.error e) := by
  refine ⟨?_, ?_, ?_⟩
  · intro h
    simp [Ticker.new, h]
  · intro h3 h5 hab
    simp [Ticker.new, h3, h5, hab]
  · intro h
    cases h with
    | inl h => exact ⟨ParseError.InvalidLen, by simp [Ticker.new, h]⟩
    | inr h =>
      by_cases hlen : 3 ≤ v.length ∧ v.length ≤ 5
      · exact ⟨ParseError.InvalidChars, by simp [Ticker.new, hlen.1, hlen.2, h]⟩
      · exact ⟨ParseError.InvalidLen, by simp [Ticker.new, hlen]⟩

/-- Witness for C5 (amended), at the inputs "00" and "ab!". -/
theorem c5_witness :
    Ticker.new [48, 48] = Except.error ParseError.InvalidLen ∧
    Ticker.new [97, 98, 33] = Except.error ParseError.InvalidChars :=
  ⟨(c5_amended_failure_cases [48, 48]).1 (by decide),
   (c5_amended_failure_cases [97, 98, 33]).2.1 (by decide) (by decide) (by decide)⟩

/-- Claim C6: two tickers successfully built from inputs that agree up to
ASCII case are equal under the `PartialEq` relation and feed the identical
canonical string to the hasher. -/
theorem c6_case_insensitive_eq_hash (v w : List Nat) (t t' : Ticker)
    (hcase : v.map toAsciiUpper = w.map toAsciiUpper)
    (hv : Ticker.new v = Except.ok t) (hw : Ticker.new w = Except.ok t') :
    Ticker.beq t t' = true ∧ t.hashInput = t'.hashInput := by
  have h1 := (ticker_new_inv v t hv).1
  have h2 := (ticker_new_inv w t' hw).1
  have hs : t.as_str = t'.as_str := by rw [h1, h2, hcase]
  exact ⟨by simp [Ticker.beq, hs], by simp [Ticker.hashInput, hs]⟩

/-- Witness for C6, at the inputs "abc" and "ABC". -/
theorem c6_witness :
    Ticker.beq ⟨[65, 66, 67, 0, 0], 3⟩ ⟨[65, 66, 67, 0, 0], 3⟩ = true ∧
    Ticker.hashInput ⟨[65, 66, 67, 0, 0], 3⟩ =
      Ticker.hashInput ⟨[65, 66, 67, 0, 0], 3⟩ :=
  c6_case_insensitive_eq_hash [97, 98, 99] [65, 66, 67]
    ⟨[65, 66, 67, 0, 0], 3⟩ ⟨[65, 66, 67, 0, 0], 3⟩
    (by decide) (by decide) (by decide)

/-- Counterexample to C7: `set_limit 0` on a freshly constructed pager
leaves the limit at 0, so not every `Pager` operation preserves
`limit ≥ 1`. -/
theorem c7_counterexample :
    ((Pager.new 0 10).set_limit 0).limit = 0 ∧
    ¬ (1 ≤ ((Pager.new 0 10).set_limit 0).limit) := by
  decide

/-- Claim C7 (amended): construction clamps any non-positive requested
limit up to 1; the offset mutators leave the limit unchanged; but
`add_limit`/`set_limit` write the limit without clamping, so `limit ≥ 1`
is only preserved by them when the written value is large enough. -/
theorem c7_amended_limit_invariant (o l v : Int) (p : Pager) :
    1 ≤ (Pager.new o l).limit ∧
    (p.add_offset v).limit = p.limit ∧
    (p.set_offset v).limit = p.limit ∧
    (1 ≤ p.limit → 0 ≤ v → 1 ≤ (p.add_limit v).limit) ∧
    (1 ≤ v → 1 ≤ (p.set_limit v).limit) := by
  refine ⟨le_max_right l 1, rfl, rfl, ?_, ?_⟩
  · intro h1 h2
    simp only [Pager.add_limit]
    omega
  · intro h1
    simpa [Pager.set_limit] using h1

/-- Witness for C7 (amended), at concrete pagers. -/
theorem c7_witness :
    1 ≤ (Pager.new 5 (-3)).limit ∧ 1 ≤ ((Pager.new 3 4).set_limit 2).limit :=
  ⟨(c7_amended_limit_invariant 5 (-3) 0 (Pager.new 0 1)).1,
   (c7_amended_limit_invariant 0 1 2 (Pager.new 3 4)).2.2.2.2 (by decide)⟩

/-- Claim C8: on the concrete account holding AAPL 10, TSLA 5, ZZZ 1,
`get_holdings` with `Pager(0, 2)` returns the ticker-ascending page
[(AAPL, 10), (TSLA, 5)] with remaining count 1, and with `Pager(2, 2)`
returns [(ZZZ, 1)] with remaining count 0; in general, for a non-negative
offset, a successful remaining count plus the offset and the returned page
length equals the account's total number of entries. -/
theorem c8_holdings_pagination :
    pg_get_holdings exDb 1 (Pager.new 0 2) =
      RustResult.ret (Except.ok (some
        ([(⟨[65, 65, 80, 76, 0], 4⟩, 10), (⟨[84, 83, 76, 65, 0], 4⟩, 5)], 1))) ∧
    pg_get_holdings exDb 1 (Pager.new 2 2) =
      RustResult.ret (Except.ok (some ([(⟨[90, 90, 90, 0, 0], 3⟩, 1)], 0))) ∧
    ∀ (db : List HoldingRow) (id : Nat) (page : Pager)
      (l : List (Ticker × Nat)) (n : Nat),
      0 ≤ page.offset →
      pg_get_holdings db id page = RustResult.ret (Except.ok (some (l, n))) →
      (n : Int) + page.offset + (l.length : Int) = countQuery db id := by
  refine ⟨by decide, by decide, ?_⟩
  intro db id page l n hoff h
  obtain ⟨h1, h2⟩ := pg_success_spec db id page l n h
  omega

/-- Witness for C8, at the empty table. -/
theorem c8_witness :
    ((0 : Nat) : Int) + (Pager.new 0 1).offset +
      (([] : List (Ticker × Nat)).length : Int) = countQuery [] 7 :=
  c8_holdings_pagination.2.2 [] 7 (Pager.new 0 1) [] 0 (by decide) (by decide)

/-- Claim C9, code behaviour at the failing input: for account id 42,
unknown to the backing store, `Service::get_holdings` over the Postgres
port returns `Ok(([], 0))` at offset 0 and panics at a positive offset —
it never returns the documented `UserNotFound`. -/
theorem c9_unknown_account_behaviour :
    service_get_holdings_pg exDb 42 (Pager.new 0 1) =
      RustResult.ret (Except.ok ([], 0)) ∧
    service_get_holdings_pg exDb 42 (Pager.new 3 1) = RustResult.panicked ∧
    service_get_holdings_pg exDb 42 (Pager.new 0 1) ≠
      RustResult.ret (Except.error Domain.Error.UserNotFound) :=
  ⟨by decide, by decide, by decide⟩

/-- Claim C10: in `PgPort::get_holdings` the remaining count of a
successful run equals the freshly queried total minus
`max 0 (offset + page length)`, and the unsigned conversion succeeds only
when the total is at least that bound; whenever the pager's (non-negative)
offset exceeds the account's total number of rows — including any positive
offset on an account with zero rows — the computed value is negative and
the call panics. -/
theorem c10_remaining_count_and_panic :
    (∀ (db : List HoldingRow) (id : Nat) (page : Pager)
       (l : List (Ticker × Nat)) (n : Nat),
       pg_get_holdings db id page = RustResult.ret (Except.ok (some (l, n))) →
       (n : Int) = countQuery db id - max 0 (page.offset + (l.length : Int)) ∧
         max 0 (page.offset + (l.length : Int)) ≤ countQuery db id) ∧
    (∀ (db : List HoldingRow) (id : Nat) (page : Pager),
       0 ≤ page.offset → countQuery db id < page.offset →
       pg_get_holdings db id page = RustResult.panicked) :=
  ⟨fun db id page l n h => pg_success_spec db id page l n h,
   fun db id page h0 hgt => pg_offset_exceeds_panic db id page h0 hgt⟩

/-- Witness for C10: a positive offset on an account with zero rows
panics, and a successful run satisfies the count equation. -/
theorem c10_witness :
    pg_get_holdings ([] : List HoldingRow) 7 (Pager.new 5 1) =
      RustResult.panicked ∧
    (((0 : Nat) : Int) = countQuery [] 7 -
        max 0 ((Pager.new 0 1).offset + (([] : List (Ticker × Nat)).length : Int)) ∧
      max 0 ((Pager.new 0 1).offset + (([] : List (Ticker × Nat)).length : Int)) ≤
        countQuery [] 7) :=
  ⟨c10_remaining_count_and_panic.2 [] 7 (Pager.new 5 1) (by decide) (by decide),
   c10_remaining_count_and_panic.1 [] 7 (Pager.new 0 1) [] 0 (by decide)⟩

end RSE

